import Mathlib

/-!
Shallow embedding of the RCRC boat-booking scheduler (React/Supabase app).

Sources embedded:
* `src/src/App.tsx` — booking save/delete (`handleSaveBooking`, `handleDeleteBooking`),
  the immutability gate (`canModifyBooking`, `isPastBooking`, `canEditBooking`),
  usage resolution (`handleResolvePendingBooking`), template-occurrence resolution
  (`resolveTemplateOccurrence`), and the day loader (`loadBookings`) that feeds the
  in-memory `templateBookings` state used by the save-time template-conflict check.
* `api/push/usage-reminders.js` — the scheduled→pending bulk transition.
* `api/push/template-confirmations.js` — the notification / auto-cancel sweep.

Modelling conventions:
* Timestamps are integers (minutes since an epoch); a calendar date is a day index
  `d : Nat` and `toDateTime d tod = 1440*d + tod` mirrors `new Date(date + T + time)`.
  `getWeekdayIndex d = (d+4) % 7` gives the JS `Date.getDay` convention (0 = Sunday;
  the JS epoch day was a Thursday). The luxon computation in the sweep
  (`weekday % 7`) yields the same Sunday-0 convention.
* Supabase queries/mutations are pure functions over an explicit `Store`. A query
  with filters becomes `List.filter`; `update ... eq` becomes `List.map` with a
  guard; `upsert ... onConflict` updates the matching rows or appends; inserts
  append rows with fresh ids taken from a counter. Error results of operations
  model the source's early returns / thrown errors, all of which occur before any
  write of that operation, so an `Except.error` result carries no state change.
* UI-only concerns (state refresh after writes, alert/message text, loading flags)
  and the boat usage-type permission loop in `handleSaveBooking` (source lines
  2066–2080, a pure early return before the time validations, requiring the boats
  table which no claim touches) are not modelled.
* The sweep in `template-confirmations.js` builds in-memory `exceptionSet` /
  `confirmationMap` snapshots and keeps them synchronized with every row it
  writes; the embedding therefore reads the evolving store directly, which is
  equivalent given the database's uniqueness constraints on
  (template_id, exception_date) and (template_id, occurrence_date).
-/

set_option maxHeartbeats 1000000
set_option maxRecDepth 4000

namespace RCRC

/-- usage_status column of a booking row (schema: 'scheduled' | 'pending' |
'confirmed' | 'cancelled', default 'scheduled'). -/
inductive UsageStatus
  | scheduled
  | pending
  | confirmed
  | cancelled
deriving DecidableEq, Repr

/-- status column of a template_confirmations row. -/
inductive ConfStatus
  | pending
  | confirmed
  | cancelled
deriving DecidableEq, Repr

/-- outcome argument of `handleResolvePendingBooking` / `resolveTemplateOccurrence`
(`'confirmed' | 'cancelled'` in the source). -/
inductive ResolveOutcome
  | confirmed
  | cancelled
deriving DecidableEq, Repr

/-- usage status written by `handleResolvePendingBooking` for each outcome. -/
def ResolveOutcome.toUsage : ResolveOutcome → UsageStatus
  | .confirmed => .confirmed
  | .cancelled => .cancelled

/-- confirmation status written by `resolveTemplateOccurrence` for each outcome. -/
def ResolveOutcome.toConf : ResolveOutcome → ConfStatus
  | .confirmed => .confirmed
  | .cancelled => .cancelled

/-- bookings table row. `boat_id` is NOT NULL in the schema; `member_id` is
nullable (`on delete set null`). -/
structure Booking where
  id : Nat
  boat_id : Nat
  member_id : Option Nat
  start_time : Int
  end_time : Int
  usage_status : UsageStatus := .scheduled
  usage_confirmed_at : Option Int := none
  usage_confirmed_by : Option Nat := none
deriving DecidableEq, Repr

/-- booking_templates table row; `boat_id` and `member_id` are nullable.
`start_time`/`end_time` are times of day (minutes since midnight). -/
structure TemplateBooking where
  id : Nat
  boat_id : Option Nat
  member_id : Option Nat
  weekday : Nat
  start_time : Nat
  end_time : Nat
deriving DecidableEq, Repr

/-- template_exceptions table row (unique per template_id + exception_date). -/
structure TemplateException where
  template_id : Nat
  exception_date : Nat
deriving DecidableEq, Repr

/-- template_confirmations table row (unique per template_id + occurrence_date). -/
structure TemplateConfirmation where
  id : Nat
  template_id : Nat
  member_id : Option Nat
  occurrence_date : Nat
  status : ConfStatus
  booking_id : Option Nat := none
  notified_at : Option Int := none
  responded_at : Option Int := none
deriving DecidableEq, Repr

/-- entity store: the relevant Supabase tables, plus counters yielding fresh
primary keys for inserted rows. -/
structure Store where
  bookings : List Booking
  templates : List TemplateBooking
  exceptions : List TemplateException
  confirmations : List TemplateConfirmation
  nextBookingId : Nat := 0
  nextConfId : Nat := 0
deriving DecidableEq, Repr

/-- acting user: `memberId` is `currentMember?.id`, and the two flags mirror the
`isAdmin` / `isGuest` state derived from the allow-list role. -/
structure Actor where
  memberId : Option Nat
  isAdmin : Bool
  isGuest : Bool
deriving DecidableEq, Repr

/-- minutes in a day; a date is a day index and a full timestamp counts minutes. -/
def minutesPerDay : Nat := 1440

/-- combination of a calendar date with a time of day, mirroring
`toDateTime(date, time) = new Date(date + T + time + :00)`. -/
def toDateTime (date tod : Nat) : Int :=
  (minutesPerDay * date + tod : Nat)

/-- weekday of a date under the JS `Date.getDay` convention (0 = Sunday),
mirroring `getWeekdayIndex`. -/
def getWeekdayIndex (date : Nat) : Nat :=
  (date + 4) % 7

/-- operating-hours floor: bookings must start at 07:30 or later
(`toDateTime(selectedDate, '07:30')` in `handleSaveBooking`). -/
def floorMinutes : Nat := 450

/-- isPastBooking from App.tsx lines 274–280: the booking's start is before now. -/
def isPastBooking (now : Int) (b : Booking) : Bool :=
  decide (b.start_time < now)

/-- isPendingBooking from App.tsx lines 282–283. -/
def isPendingBooking (b : Booking) : Bool :=
  b.usage_status == .pending

/-- canEditBooking from App.tsx lines 1487–1495: guests may not edit, admins may
edit anything, members may edit their own bookings. -/
def canEditBooking (actor : Actor) (b : Booking) : Bool :=
  if actor.isGuest then false
  else if actor.isAdmin then true
  else
    match actor.memberId with
    | some m => b.member_id == some m
    | none => false

/-- canModifyBooking from App.tsx lines 1497–1508: editable, not pending, not past.
No check of the 'confirmed' or 'cancelled' usage statuses appears here. -/
def canModifyBooking (actor : Actor) (now : Int) (b : Booking) : Bool :=
  canEditBooking actor b && !isPendingBooking b && !(isPastBooking now b)

/-- booking-overlap conflict query of `handleSaveBooking` (App.tsx lines
2114–2123): bookings whose boat is among the selected boats with
`start_time < endDate` and `end_time > startDate`, excluding the booking being
edited. No usage_status filter appears in the query. -/
def bookingConflictRows (bookings : List Booking) (selectedBoatIds : List Nat)
    (startT endT : Int) (excludeId : Option Nat) : List Booking :=
  bookings.filter fun b =>
    selectedBoatIds.contains b.boat_id
      && decide (b.start_time < endT)
      && decide (b.end_time > startT)
      && (match excludeId with
          | some i => b.id != i
          | none => true)

/-- booking_templates query of `loadBookings` (App.tsx lines 1313–1319): all
templates whose weekday equals the selected date's weekday. Template exceptions
are loaded into a separate state variable and are NOT applied to this list. -/
def dayTemplates (templates : List TemplateBooking) (date : Nat) : List TemplateBooking :=
  templates.filter fun t => t.weekday == getWeekdayIndex date

/-- template-conflict filter of `handleSaveBooking` (App.tsx lines 2132–2144):
among the day's loaded templates, those with a boat among the selected boats
whose occurrence interval on the selected date overlaps the requested range.
The filter does not consult the template_exceptions state. -/
def templateConflictRows (dayTmpls : List TemplateBooking) (selectedBoatIds : List Nat)
    (date : Nat) (startT endT : Int) : List TemplateBooking :=
  dayTmpls.filter fun t =>
    match t.boat_id with
    | none => false
    | some b =>
      selectedBoatIds.contains b
        && decide (toDateTime date t.start_time < endT)
        && decide (toDateTime date t.end_time > startT)

/-- request data of `handleSaveBooking`: the multi-select boat list (create), the
single boat select (edit), the admin's member select, the selected date, the
start/end times of day, and the booking being edited (if any). -/
structure SaveRequest where
  bookingBoatIds : List Nat
  bookingBoatId : Option Nat
  bookingMemberId : Option Nat
  date : Nat
  startTod : Nat
  endTod : Nat
  editing : Option Booking
deriving DecidableEq, Repr

/-- selected boats of `handleSaveBooking` (App.tsx lines 2045–2049): when editing,
the single boat select (or nothing); otherwise the multi-select list. -/
def selectedBoatIdsOf (r : SaveRequest) : List Nat :=
  match r.editing with
  | some _ =>
    match r.bookingBoatId with
    | some b => [b]
    | none => []
  | none => r.bookingBoatIds

/-- error outcomes of `handleSaveBooking` / `handleDeleteBooking`; each corresponds
to an early return in the source before any write. -/
inductive SaveError
  | guestReadOnly
  | noBoatSelected
  | noMemberSelected
  | notOwner
  | immutableBooking
  | pastStart
  | beforeFloor
  | endNotAfterStart
  | templateConflict
  | bookingConflict
deriving DecidableEq, Repr

/-- update applied to the edited row by `handleSaveBooking` (App.tsx lines
2172–2181): sets boat, member and times on the row with the edited id. -/
def updateBookingRow (editedId newBoat mid : Nat) (startT endT : Int)
    (row : Booking) : Booking :=
  if row.id == editedId then
    { row with
      boat_id := newBoat
      member_id := some mid
      start_time := startT
      end_time := endT }
  else row

/-- rows inserted by the create path of `handleSaveBooking` (App.tsx lines
2189–2198): one `scheduled` booking per selected boat, with fresh ids. -/
def insertNewBookings (startId : Nat) (boatIds : List Nat) (mid : Nat)
    (startT endT : Int) : List Booking :=
  match boatIds with
  | [] => []
  | bId :: rest =>
    { id := startId
      boat_id := bId
      member_id := some mid
      start_time := startT
      end_time := endT } :: insertNewBookings (startId + 1) rest mid startT endT

/-- handleSaveBooking from App.tsx lines 2036–2221: guest gate, boat/member
selection, owner gate for non-admin edits, the immutability gate, the three time
validations (not in the past, at/after the 07:30 floor, end after start), the
booking-overlap query, the template-conflict filter, and finally the update
(edit) or insert (create) of booking rows. The boat usage-type permission loop
(lines 2066–2080) is an additional pure early return that is not modelled. -/
def handleSaveBooking (actor : Actor) (now : Int) (s : Store) (r : SaveRequest) :
    Except SaveError Store :=
  if actor.isGuest then .error .guestReadOnly
  else if (selectedBoatIdsOf r).length == 0 then .error .noBoatSelected
  else
    match (if actor.isAdmin then r.bookingMemberId else actor.memberId) with
    | none => .error .noMemberSelected
    | some effectiveMemberId =>
      if !actor.isAdmin
          && (match r.editing with
              | some b => !canEditBooking actor b
              | none => false) then .error .notOwner
      else
        let startT := toDateTime r.date r.startTod
        let endT := toDateTime r.date r.endTod
        let minStart := toDateTime r.date floorMinutes
        if (match r.editing with
            | some b => !canModifyBooking actor now b
            | none => false) then .error .immutableBooking
        else if startT < now then .error .pastStart
        else if startT < minStart then .error .beforeFloor
        else if endT ≤ startT then .error .endNotAfterStart
        else
          let conflicts :=
            bookingConflictRows s.bookings (selectedBoatIdsOf r) startT endT
              (r.editing.map (·.id))
          let tConflicts :=
            templateConflictRows (dayTemplates s.templates r.date)
              (selectedBoatIdsOf r) r.date startT endT
          if 0 < tConflicts.length then .error .templateConflict
          else if 0 < conflicts.length then .error .bookingConflict
          else
            match r.editing, r.bookingBoatId with
            | some b, some newBoat =>
              .ok { s with bookings :=
                s.bookings.map (updateBookingRow b.id newBoat effectiveMemberId startT endT) }
            | some _, none => .error .noBoatSelected
            | none, _ =>
              .ok { s with
                bookings := s.bookings ++
                  insertNewBookings s.nextBookingId r.bookingBoatIds effectiveMemberId startT endT
                nextBookingId := s.nextBookingId + r.bookingBoatIds.length }

/-- handleDeleteBooking from App.tsx lines 2223–2261: gated by `canModifyBooking`
only, then deletes the row with the edited booking's id. -/
def handleDeleteBooking (actor : Actor) (now : Int) (s : Store) (b : Booking) :
    Except SaveError Store :=
  if !canModifyBooking actor now b then .error .immutableBooking
  else .ok { s with bookings := s.bookings.filter fun row => row.id != b.id }

/-- error outcome of `handleResolvePendingBooking`: the actor may only confirm
their own completed bookings. -/
inductive ResolveUsageError
  | notOwner
deriving DecidableEq, Repr

/-- handleResolvePendingBooking from App.tsx lines 2314–2357: if no current
member, the handler returns without doing anything; otherwise the actor must be
an admin or the booking's owner, and the write is a conditional update setting
usage_status, usage_confirmed_at and usage_confirmed_by on rows matching the
booking's id AND `usage_status = 'pending'`. -/
def handleResolvePendingBooking (actor : Actor) (now : Int) (s : Store)
    (b : Booking) (usageStatus : ResolveOutcome) : Except ResolveUsageError Store :=
  match actor.memberId with
  | none => .ok s
  | some mid =>
    if !(actor.isAdmin || b.member_id == some mid) then .error .notOwner
    else
      .ok { s with bookings := s.bookings.map fun row =>
        if row.id == b.id && row.usage_status == UsageStatus.pending then
          { row with
            usage_status := usageStatus.toUsage
            usage_confirmed_at := some now
            usage_confirmed_by := some mid }
        else row }

/-- error outcomes of `resolveTemplateOccurrence`; each corresponds to a throw in
the source before any write of that call. -/
inductive ResolveError
  | noBoat
  | bookingConflict
deriving DecidableEq, Repr

/-- booking-overlap conflict query of `resolveTemplateOccurrence` (App.tsx lines
2392–2397): bookings of the template's boat with `start_time < bookingEnd` and
`end_time > bookingStart`. There is no usage_status filter, no excluded id, and
no check against other template occurrences. -/
def resolveConflictRows (bookings : List Booking) (boatId : Nat)
    (startT endT : Int) : List Booking :=
  bookings.filter fun b =>
    b.boat_id == boatId
      && decide (b.start_time < endT)
      && decide (b.end_time > startT)

/-- upsert into template_exceptions with onConflict (template_id, exception_date):
a no-op when the row exists, an insert otherwise. -/
def upsertException (l : List TemplateException) (e : TemplateException) :
    List TemplateException :=
  if l.any fun x => x.template_id == e.template_id && x.exception_date == e.exception_date
  then l
  else l ++ [e]

/-- membership test for a (template_id, date) key in template_exceptions,
mirroring the sweep's `exceptionSet.has(key)`. -/
def hasException (l : List TemplateException) (tid d : Nat) : Bool :=
  l.any fun e => e.template_id == tid && e.exception_date == d

/-- lookup of the template_confirmations row for a (template_id, occurrence_date)
key, mirroring `confirmationMap.get(key)`. -/
def confFind (l : List TemplateConfirmation) (tid d : Nat) :
    Option TemplateConfirmation :=
  l.find? fun c => c.template_id == tid && c.occurrence_date == d

/-- status of the template_confirmations row for a (template_id, occurrence_date)
key, when one exists. -/
def confirmationStatus (l : List TemplateConfirmation) (tid d : Nat) :
    Option ConfStatus :=
  (confFind l tid d).map (·.status)

/-- confirmations write of `resolveTemplateOccurrence` (App.tsx lines 2433–2453):
given a confirmation id, an update of status / booking_id / responded_at on rows
with that id; otherwise an upsert keyed on (template_id, occurrence_date) whose
payload also carries the member id. -/
def resolveConfWrite (now : Int) (s : Store) (tid : Nat) (confId : Option Nat)
    (mid dOcc : Nat) (st : ConfStatus) (bookingId : Option Nat) : Store :=
  match confId with
  | some cid =>
    { s with confirmations := s.confirmations.map fun c =>
        if c.id == cid then
          { c with status := st, booking_id := bookingId, responded_at := some now }
        else c }
  | none =>
    if s.confirmations.any fun c => c.template_id == tid && c.occurrence_date == dOcc then
      { s with confirmations := s.confirmations.map fun c =>
          if c.template_id == tid && c.occurrence_date == dOcc then
            { c with
              member_id := some mid
              status := st
              booking_id := bookingId
              responded_at := some now }
          else c }
    else
      { s with
        confirmations := s.confirmations ++
          [{ id := s.nextConfId
             template_id := tid
             member_id := some mid
             occurrence_date := dOcc
             status := st
             booking_id := bookingId
             responded_at := some now }]
        nextConfId := s.nextConfId + 1 }

/-- resolveTemplateOccurrence from App.tsx lines 2359–2466. For the 'confirmed'
outcome: requires the template to have a boat, computes the occurrence interval
from the date and the template's times of day, runs the booking-overlap query
(throwing on any hit), and inserts a new scheduled booking. For either outcome it
then upserts a template_exceptions row for (template_id, occurrence_date) and
writes the template_confirmations row to the resolved status, linking the new
booking's id when one was created. -/
def resolveTemplateOccurrence (now : Int) (s : Store) (t : TemplateBooking)
    (confId : Option Nat) (mid dOcc : Nat) (nextStatus : ResolveOutcome) :
    Except ResolveError Store :=
  match nextStatus with
  | .confirmed =>
    match t.boat_id with
    | none => .error .noBoat
    | some boatId =>
      let bookingStart := toDateTime dOcc t.start_time
      let bookingEnd := toDateTime dOcc t.end_time
      let conflicts := resolveConflictRows s.bookings boatId bookingStart bookingEnd
      if 0 < conflicts.length then .error .bookingConflict
      else
        let newId := s.nextBookingId
        let s1 : Store :=
          { s with
            bookings := s.bookings ++
              [{ id := newId
                 boat_id := boatId
                 member_id := some mid
                 start_time := bookingStart
                 end_time := bookingEnd }]
            nextBookingId := s.nextBookingId + 1 }
        let s2 : Store :=
          { s1 with exceptions := upsertException s1.exceptions ⟨t.id, dOcc⟩ }
        .ok (resolveConfWrite now s2 t.id confId mid dOcc .confirmed (some newId))
  | .cancelled =>
    let s2 : Store := { s with exceptions := upsertException s.exceptions ⟨t.id, dOcc⟩ }
    .ok (resolveConfWrite now s2 t.id confId mid dOcc .cancelled none)

/-- usage transition of api/push/usage-reminders.js lines 89–95: every booking
with `usage_status = 'scheduled'`, `end_time < now` AND a non-null member_id is
set to `usage_status = 'pending'`; all other rows are untouched. -/
def usageTransition (now : Int) (bookings : List Booking) : List Booking :=
  bookings.map fun b =>
    if b.usage_status == UsageStatus.scheduled
        && decide (b.end_time < now)
        && b.member_id.isSome then
      { b with usage_status := .pending }
    else b

/-- kind of push message sent by the template-confirmations sweep. -/
inductive NotifKind
  | reminder
  | removal
deriving DecidableEq, Repr

/-- record of one push message sent by the sweep, with the occurrence it is
about. -/
structure PushMessage where
  member_id : Nat
  kind : NotifKind
  template_id : Nat
  occurrence_date : Nat
deriving DecidableEq, Repr

/-- state threaded through the template-confirmations sweep: the store plus the
push messages dispatched so far. -/
structure SweepState where
  store : Store
  sent : List PushMessage
deriving DecidableEq, Repr

/-- cancelled-confirmation upsert of the sweep's auto-cancel pass
(template-confirmations.js lines 231–252): keyed on
(template_id, occurrence_date), writing member_id, status 'cancelled' and
responded_at; other columns of an existing row are untouched. -/
def sweepCancelUpsert (now : Int) (s : Store) (tid mid dOcc : Nat) : Store :=
  if s.confirmations.any fun c => c.template_id == tid && c.occurrence_date == dOcc then
    { s with confirmations := s.confirmations.map fun c =>
        if c.template_id == tid && c.occurrence_date == dOcc then
          { c with member_id := some mid, status := .cancelled, responded_at := some now }
        else c }
  else
    { s with
      confirmations := s.confirmations ++
        [{ id := s.nextConfId
           template_id := tid
           member_id := some mid
           occurrence_date := dOcc
           status := .cancelled
           responded_at := some now }]
      nextConfId := s.nextConfId + 1 }

/-- one (template, date) iteration of the template-confirmations sweep
(template-confirmations.js lines 131–268): skip templates without a member, a
date whose weekday differs from the template's, or an excepted occurrence. On
the notification date: skip occurrences whose confirmation is already confirmed
or cancelled, create a pending confirmation when none exists, and when the
confirmation is not yet notified send a reminder and stamp notified_at. On an
auto-cancel date: skip confirmed occurrences, upsert the exception, upsert the
cancelled confirmation, and send a removal message only when the prior status
was not already cancelled. -/
def sweepStep (now : Int) (notificationDate : Nat) (st : SweepState)
    (t : TemplateBooking) (d : Nat) : SweepState :=
  match t.member_id with
  | none => st
  | some mid =>
    if getWeekdayIndex d != t.weekday then st
    else if hasException st.store.exceptions t.id d then st
    else
      let existing := confFind st.store.confirmations t.id d
      if d == notificationDate then
        if existing.map (·.status) == some ConfStatus.confirmed
            || existing.map (·.status) == some ConfStatus.cancelled then st
        else
          let created :=
            match existing with
            | some c => (st.store, c)
            | none =>
              let c : TemplateConfirmation :=
                { id := st.store.nextConfId
                  template_id := t.id
                  member_id := some mid
                  occurrence_date := d
                  status := .pending }
              ({ st.store with
                  confirmations := st.store.confirmations ++ [c]
                  nextConfId := st.store.nextConfId + 1 }, c)
          let store1 := created.1
          let conf := created.2
          if conf.notified_at == none then
            { store :=
                { store1 with confirmations := store1.confirmations.map fun c =>
                    if c.id == conf.id then { c with notified_at := some now } else c }
              sent := st.sent ++ [⟨mid, .reminder, t.id, d⟩] }
          else { st with store := store1 }
      else
        if existing.map (·.status) == some ConfStatus.confirmed then st
        else
          let store1 :=
            { st.store with exceptions := upsertException st.store.exceptions ⟨t.id, d⟩ }
          let store2 := sweepCancelUpsert now store1 t.id mid d
          { store := store2
            sent :=
              if existing.map (·.status) != some ConfStatus.cancelled then
                st.sent ++ [⟨mid, .removal, t.id, d⟩]
              else st.sent }

/-- template-confirmations sweep handler (template-confirmations.js lines
80–268): with `today` the current London date, processes every template against
the notification date (today + 3) and the two auto-cancel dates (today + 1,
today + 2), in the source's iteration order. -/
def runSweep (now : Int) (today : Nat) (s : Store) : SweepState :=
  let notificationDate := today + 3
  let dates := [today + 3, today + 1, today + 2]
  s.templates.foldl
    (fun st t => dates.foldl (fun st d => sweepStep now notificationDate st t d) st)
    { store := s, sent := [] }

/-! ### Invariants -/

/-- interval compatibility of two booking rows, as the spec's no-double-booking
property states it: when neither is cancelled and they are on the same boat,
their half-open intervals must not overlap. -/
def bookingsCompatible (a b : Booking) : Prop :=
  a.usage_status ≠ .cancelled → b.usage_status ≠ .cancelled → a.boat_id = b.boat_id →
    ¬(a.start_time < b.end_time ∧ a.end_time > b.start_time)

instance : DecidableRel bookingsCompatible := fun a b =>
  decidable_of_iff
    (a.usage_status ≠ .cancelled → b.usage_status ≠ .cancelled → a.boat_id = b.boat_id →
      ¬(a.start_time < b.end_time ∧ a.end_time > b.start_time)) Iff.rfl

/-- no-double-booking invariant: every pair of distinct booking rows is
interval-compatible. -/
def noDoubleBooking (bookings : List Booking) : Prop :=
  bookings.Pairwise bookingsCompatible

/-- primary-key uniqueness of the bookings table, which the store guarantees. -/
def uniqueIds (bookings : List Booking) : Prop :=
  bookings.Pairwise fun a b => a.id ≠ b.id

instance (l : List Booking) : Decidable (noDoubleBooking l) :=
  inferInstanceAs (Decidable (l.Pairwise bookingsCompatible))

instance (l : List Booking) : Decidable (uniqueIds l) :=
  inferInstanceAs (Decidable (l.Pairwise fun a b : Booking => a.id ≠ b.id))

/-! ### Helper lemmas -/

/-- membership characterization of the save-time booking-overlap query. -/
lemma mem_bookingConflictRows {bookings : List Booking} {selected : List Nat}
    {startT endT : Int} {excludeId : Option Nat} {b : Booking} :
    b ∈ bookingConflictRows bookings selected startT endT excludeId ↔
      b ∈ bookings ∧ b.boat_id ∈ selected ∧ b.start_time < endT ∧ b.end_time > startT ∧
        (∀ i, excludeId = some i → b.id ≠ i) := by
  unfold bookingConflictRows
  rw [List.mem_filter]
  cases excludeId with
  | none => simp [List.elem_iff, and_assoc]
  | some i => simp [List.elem_iff, and_assoc]

/-- membership characterization of the resolve-time booking-overlap query. -/
lemma mem_resolveConflictRows {bookings : List Booking} {boatId : Nat}
    {startT endT : Int} {b : Booking} :
    b ∈ resolveConflictRows bookings boatId startT endT ↔
      b ∈ bookings ∧ b.boat_id = boatId ∧ b.start_time < endT ∧ b.end_time > startT := by
  unfold resolveConflictRows
  rw [List.mem_filter]
  simp [and_assoc]

/-- combining the same date with two times of day preserves strict order. -/
lemma toDateTime_lt_iff {d a b : Nat} : toDateTime d a < toDateTime d b ↔ a < b := by
  unfold toDateTime minutesPerDay
  omega

/-- combining the same date with two times of day preserves order. -/
lemma toDateTime_le_iff {d a b : Nat} : toDateTime d a ≤ toDateTime d b ↔ a ≤ b := by
  unfold toDateTime minutesPerDay
  omega

/-! ### Claims -/

/-- C10: the booking-overlap conflict query used by booking creation and by
template-occurrence confirmation does not filter on usage_status, so a booking
whose usage_status is 'cancelled' still blocks any new booking, and any
confirmed template occurrence, whose interval overlaps it on the same boat. -/
theorem C10_cancelled_booking_still_blocks :
    (∀ (actor : Actor) (now : Int) (s : Store) (r : SaveRequest) (b : Booking),
       b ∈ s.bookings → b.usage_status = .cancelled →
       b.boat_id ∈ r.bookingBoatIds →
       b.start_time < toDateTime r.date r.endTod →
       b.end_time > toDateTime r.date r.startTod →
       r.editing = none →
       ∀ s2, handleSaveBooking actor now s r ≠ .ok s2)
    ∧ (∀ (now : Int) (s : Store) (t : TemplateBooking) (confId : Option Nat)
         (mid dOcc boatId : Nat) (b : Booking),
       b ∈ s.bookings → b.usage_status = .cancelled →
       t.boat_id = some boatId → b.boat_id = boatId →
       b.start_time < toDateTime dOcc t.end_time →
       b.end_time > toDateTime dOcc t.start_time →
       resolveTemplateOccurrence now s t confId mid dOcc .confirmed =
         .error .bookingConflict) := by
  constructor
  · intro actor now s r b hmem _hcancel hboat hlt hgt hedit s2 hok
    have hb : b ∈ bookingConflictRows s.bookings r.bookingBoatIds
        (toDateTime r.date r.startTod) (toDateTime r.date r.endTod) none := by
      rw [mem_bookingConflictRows]
      exact ⟨hmem, hboat, hlt, hgt, fun _ h => Option.noConfusion h⟩
    have hpos := List.length_pos_of_mem hb
    simp only [handleSaveBooking, selectedBoatIdsOf, hedit, Option.map_none'] at hok
    repeat
      first
        | exact Except.noConfusion hok
        | exact absurd hpos (by assumption)
        | split at hok
  · intro now s t confId mid dOcc boatId b hmem _hcancel hboat hbb hlt hgt
    have hb : b ∈ resolveConflictRows s.bookings boatId
        (toDateTime dOcc t.start_time) (toDateTime dOcc t.end_time) := by
      rw [mem_resolveConflictRows]
      exact ⟨hmem, hbb, hlt, hgt⟩
    have hpos := List.length_pos_of_mem hb
    simp only [resolveTemplateOccurrence, hboat]
    rw [if_pos hpos]

/-- sample cancelled booking for the C10 witness: boat 7, 09:00–10:00 on day 5. -/
def c10Booking : Booking :=
  { id := 1
    boat_id := 7
    member_id := some 2
    start_time := toDateTime 5 540
    end_time := toDateTime 5 600
    usage_status := .cancelled }

/-- sample store for the C10 witness. -/
def c10Store : Store :=
  { bookings := [c10Booking]
    templates := []
    exceptions := []
    confirmations := []
    nextBookingId := 2 }

/-- sample create request for the C10 witness: boat 7, 09:30–10:30 on day 5. -/
def c10Req : SaveRequest :=
  { bookingBoatIds := [7]
    bookingBoatId := none
    bookingMemberId := some 3
    date := 5
    startTod := 570
    endTod := 630
    editing := none }

/-- sample admin actor for the C10 witness. -/
def c10Actor : Actor := { memberId := some 2, isAdmin := true, isGuest := false }

/-- sample template for the C10 witness: boat 7, 09:00–10:00. -/
def c10Template : TemplateBooking :=
  { id := 9, boat_id := some 7, member_id := some 2, weekday := 2
    start_time := 540, end_time := 600 }

/-- witness for C10 at concrete inputs. -/
theorem C10_cancelled_booking_still_blocks_witness :
    (∀ s2, handleSaveBooking c10Actor 0 c10Store c10Req ≠ .ok s2) ∧
      resolveTemplateOccurrence 0 c10Store c10Template none 3 5 .confirmed =
        .error .bookingConflict := by
  constructor
  · exact C10_cancelled_booking_still_blocks.1 c10Actor 0 c10Store c10Req c10Booking
      (by decide) (by decide) (by decide) (by decide) (by decide) rfl
  · exact C10_cancelled_booking_still_blocks.2 0 c10Store c10Template none 3 5 7 c10Booking
      (by decide) (by decide) rfl rfl (by decide) (by decide)

/-- C9: create-time validation. With a non-guest actor, a nonempty boat
selection, a resolvable member and no booking being edited, saving fails with
one of the three time-validation errors (each an early return before any write)
whenever end ≤ start, or start is before the 07:30 operating-hours floor, or
start is in the past; and for any request whose start is exactly at the floor,
whose end is after its start and whose start is not in the past, the result is
never one of those three errors. -/
theorem C9_create_time_validation :
    (∀ (actor : Actor) (now : Int) (s : Store) (r : SaveRequest),
       actor.isGuest = false → r.editing = none → r.bookingBoatIds ≠ [] →
       (if actor.isAdmin = true then r.bookingMemberId else actor.memberId) ≠ none →
       (r.endTod ≤ r.startTod ∨ r.startTod < floorMinutes ∨
         toDateTime r.date r.startTod < now) →
       handleSaveBooking actor now s r = .error .pastStart ∨
       handleSaveBooking actor now s r = .error .beforeFloor ∨
       handleSaveBooking actor now s r = .error .endNotAfterStart)
    ∧ (∀ (actor : Actor) (now : Int) (s : Store) (r : SaveRequest),
       r.startTod = floorMinutes → r.startTod < r.endTod →
       now ≤ toDateTime r.date r.startTod →
       handleSaveBooking actor now s r ≠ .error .pastStart ∧
       handleSaveBooking actor now s r ≠ .error .beforeFloor ∧
       handleSaveBooking actor now s r ≠ .error .endNotAfterStart) := by
  constructor
  · intro actor now s r hguest hedit hne hmem hbad
    obtain ⟨m, hm⟩ := Option.ne_none_iff_exists'.mp hmem
    have hlen : (r.bookingBoatIds.length == 0) = false := by
      simpa [List.length_eq_zero] using hne
    simp only [handleSaveBooking, selectedBoatIdsOf, hedit, hguest, hlen, hm,
      Option.map_none', Bool.and_false]
    by_cases c1 : toDateTime r.date r.startTod < now
    · left
      rw [if_pos c1]
      simp
    · by_cases c2 : toDateTime r.date r.startTod < toDateTime r.date floorMinutes
      · right; left
        rw [if_neg c1, if_pos c2]
        simp
      · by_cases c3 : toDateTime r.date r.endTod ≤ toDateTime r.date r.startTod
        · right; right
          rw [if_neg c1, if_neg c2, if_pos c3]
          simp
        · exfalso
          rcases hbad with h | h | h
          · exact c3 (toDateTime_le_iff.mpr h)
          · exact c2 (toDateTime_lt_iff.mpr h)
          · exact c1 h
  · intro actor now s r hfloor hlt hnow
    have hnotPast : ¬(toDateTime r.date r.startTod < now) := not_lt.mpr hnow
    have hnotFloor : ¬(toDateTime r.date r.startTod < toDateTime r.date floorMinutes) := by
      rw [hfloor]
      exact lt_irrefl _
    have hnotEnd : ¬(toDateTime r.date r.endTod ≤ toDateTime r.date r.startTod) :=
      fun hc => absurd (toDateTime_le_iff.mp hc) (not_le.mpr hlt)
    refine ⟨?_, ?_, ?_⟩ <;>
      · intro h
        simp only [handleSaveBooking] at h
        repeat'
          first
            | split at h
            | exact Except.noConfusion h
            | exact SaveError.noConfusion (Except.error.inj h)
            | exact absurd (by assumption) hnotPast
            | exact absurd (by assumption) hnotFloor
            | exact absurd (by assumption) hnotEnd

/-- sample admin actor for the C9 witness. -/
def c9Actor : Actor := { memberId := some 2, isAdmin := true, isGuest := false }

/-- sample empty store for the C9 witness. -/
def c9Store : Store :=
  { bookings := [], templates := [], exceptions := [], confirmations := [] }

/-- sample invalid request (end before start) for the C9 witness. -/
def c9ReqBad : SaveRequest :=
  { bookingBoatIds := [1]
    bookingBoatId := none
    bookingMemberId := some 2
    date := 10
    startTod := 500
    endTod := 480
    editing := none }

/-- sample valid request (start at the 07:30 floor) for the C9 witness. -/
def c9ReqGood : SaveRequest :=
  { bookingBoatIds := [1]
    bookingBoatId := none
    bookingMemberId := some 2
    date := 10
    startTod := 450
    endTod := 510
    editing := none }

/-- witness for C9 at concrete inputs. -/
theorem C9_create_time_validation_witness :
    (handleSaveBooking c9Actor 0 c9Store c9ReqBad = .error .pastStart ∨
     handleSaveBooking c9Actor 0 c9Store c9ReqBad = .error .beforeFloor ∨
     handleSaveBooking c9Actor 0 c9Store c9ReqBad = .error .endNotAfterStart) ∧
    (handleSaveBooking c9Actor 0 c9Store c9ReqGood ≠ .error .pastStart ∧
     handleSaveBooking c9Actor 0 c9Store c9ReqGood ≠ .error .beforeFloor ∧
     handleSaveBooking c9Actor 0 c9Store c9ReqGood ≠ .error .endNotAfterStart) := by
  constructor
  · exact C9_create_time_validation.1 c9Actor 0 c9Store c9ReqBad rfl rfl
      (by decide) (by decide) (Or.inl (by decide))
  · exact C9_create_time_validation.2 c9Actor 0 c9Store c9ReqGood rfl
      (by decide) (by decide)

/-- sample template for C2: boat 7, weekday 2, 09:00–10:00. -/
def c2Template : TemplateBooking :=
  { id := 4, boat_id := some 7, member_id := some 2, weekday := 2
    start_time := 540, end_time := 600 }

/-- sample store for C2: the template, a template exception suppressing its
occurrence on day 5 (a weekday-2 date), and no bookings. -/
def c2Store : Store :=
  { bookings := []
    templates := [c2Template]
    exceptions := [{ template_id := 4, exception_date := 5 }]
    confirmations := [] }

/-- sample request for C2: boat 7 on day 5, 09:30–10:30, overlapping the
excepted occurrence. -/
def c2Req : SaveRequest :=
  { bookingBoatIds := [7]
    bookingBoatId := none
    bookingMemberId := some 3
    date := 5
    startTod := 570
    endTod := 630
    editing := none }

/-- sample admin actor for C2. -/
def c2Actor : Actor := { memberId := some 2, isAdmin := true, isGuest := false }

/-- C2: evaluation of the save path at the failing input. A TemplateException
row exists for the template and date, yet `handleSaveBooking` (whose
template-conflict filter never consults the exceptions) still rejects the
request with a template conflict — the excepted occurrence blocks the booking,
contradicting the claim that it never causes a rejection. -/
theorem C2_excepted_template_still_blocks :
    hasException c2Store.exceptions c2Template.id c2Req.date = true ∧
      handleSaveBooking c2Actor 0 c2Store c2Req = .error .templateConflict := by
  constructor
  · decide
  · rfl

/-- sample scheduled booking with a null member_id whose end time has passed,
for the C5 counterexample. -/
def c5Booking : Booking :=
  { id := 1, boat_id := 3, member_id := none, start_time := 0, end_time := 10 }

/-- counterexample for C5: a booking with usage_status 'scheduled' and
end_time < now is left unchanged by the usage-transition sweep because its
member_id is null (the update carries a `.not(member_id, is, null)` filter),
contradicting the claim that exactly the scheduled-and-ended set transitions. -/
theorem C5_null_member_not_transitioned :
    c5Booking.usage_status = .scheduled ∧ c5Booking.end_time < 100 ∧
      usageTransition 100 [c5Booking] = [c5Booking] := by
  refine ⟨rfl, by decide, ?_⟩
  decide

/-- C5 (amended): the sweep's conditional update transitions exactly the
bookings with usage_status 'scheduled', end_time < now AND a non-null
member_id to 'pending'; every other row is unchanged. -/
theorem C5_usage_transition_characterization :
    ∀ (now : Int) (l : List Booking) (i : Nat) (b : Booking), l[i]? = some b →
      ((b.usage_status = .scheduled ∧ b.end_time < now ∧ b.member_id ≠ none) →
        (usageTransition now l)[i]? = some { b with usage_status := .pending }) ∧
      (¬(b.usage_status = .scheduled ∧ b.end_time < now ∧ b.member_id ≠ none) →
        (usageTransition now l)[i]? = some b) := by
  intro now l i b hb
  constructor
  · rintro ⟨h1, h2, h3⟩
    have hcond :
        (b.usage_status == UsageStatus.scheduled && decide (b.end_time < now)
            && b.member_id.isSome) = true := by
      simp [h1, h2, Option.isSome_iff_ne_none, h3]
    simp only [usageTransition, List.getElem?_map, hb, Option.map_some']
    rw [if_pos hcond]
  · intro hnot
    have hcond :
        ¬(b.usage_status == UsageStatus.scheduled && decide (b.end_time < now)
            && b.member_id.isSome) = true := by
      intro hc
      simp only [Bool.and_eq_true, beq_iff_eq, decide_eq_true_eq,
        Option.isSome_iff_ne_none] at hc
      exact hnot ⟨hc.1.1, hc.1.2, hc.2⟩
    simp only [usageTransition, List.getElem?_map, hb, Option.map_some']
    rw [if_neg hcond]

/-- sample scheduled booking (owned, ended) for the C5 witness. -/
def c5Booking2 : Booking :=
  { id := 2, boat_id := 3, member_id := some 2, start_time := 0, end_time := 10 }

/-- witness for the amended C5 at concrete inputs. -/
theorem C5_usage_transition_characterization_witness :
    (usageTransition 100 [c5Booking2])[0]? =
      some { c5Booking2 with usage_status := .pending } := by
  refine (C5_usage_transition_characterization 100 [c5Booking2] 0 c5Booking2 rfl).1 ?_
  exact ⟨rfl, by decide, by decide⟩

/-- sample booking for C4: usage_status 'confirmed' with a start time in the
future relative to the evaluation instant. -/
def c4Booking : Booking :=
  { id := 5, boat_id := 2, member_id := some 9, start_time := 100, end_time := 160
    usage_status := .confirmed }

/-- sample store for C4. -/
def c4Store : Store :=
  { bookings := [c4Booking], templates := [], exceptions := [], confirmations := [] }

/-- sample owner actor for C4. -/
def c4Actor : Actor := { memberId := some 9, isAdmin := false, isGuest := false }

/-- counterexample for C4: a booking whose usage_status is 'confirmed' (with a
future start) is accepted for deletion by its owner — `canModifyBooking` tests
only the 'pending' status and the past-start condition, so the delete goes
through, contradicting the claim that Update/Delete is rejected for every
booking in the 'pending', 'confirmed' or 'cancelled' states. -/
theorem C4_confirmed_booking_deletable :
    c4Booking.usage_status = .confirmed ∧
      handleDeleteBooking c4Actor 0 c4Store c4Booking =
        .ok { c4Store with bookings := [] } := by
  exact ⟨rfl, rfl⟩

/-- C4 (amended): the modification gate rejects Update and Delete, with the
immutable-state error and before any write, for every actor whenever the
booking's usage_status is 'pending' or its start time is in the past; the
'confirmed'/'cancelled' statuses are not tested by the gate itself (in every
reachable state such bookings are already past, so the past check covers them). -/
theorem C4_immutability_gate :
    (∀ (actor : Actor) (now : Int) (s : Store) (b : Booking),
       (b.usage_status = .pending ∨ b.start_time < now) →
       handleDeleteBooking actor now s b = .error .immutableBooking)
    ∧ (∀ (actor : Actor) (now : Int) (s : Store) (r : SaveRequest) (b : Booking),
       r.editing = some b → actor.isGuest = false → r.bookingBoatId ≠ none →
       (if actor.isAdmin = true then r.bookingMemberId else actor.memberId) ≠ none →
       (actor.isAdmin = true ∨ canEditBooking actor b = true) →
       (b.usage_status = .pending ∨ b.start_time < now) →
       handleSaveBooking actor now s r = .error .immutableBooking) := by
  have hgate : ∀ (actor : Actor) (now : Int) (b : Booking),
      (b.usage_status = .pending ∨ b.start_time < now) →
      canModifyBooking actor now b = false := by
    intro actor now b hb
    unfold canModifyBooking
    rcases hb with h | h
    · have : isPendingBooking b = true := by
        simp [isPendingBooking, h]
      simp [this]
    · have : isPastBooking now b = true := by
        simp [isPastBooking, h]
      simp [this]
  constructor
  · intro actor now s b hb
    unfold handleDeleteBooking
    rw [if_pos]
    simp [hgate actor now b hb]
  · intro actor now s r b hedit hguest hboat hmem hperm hb
    obtain ⟨nb, hnb⟩ := Option.ne_none_iff_exists'.mp hboat
    obtain ⟨m, hm⟩ := Option.ne_none_iff_exists'.mp hmem
    have hown : (!actor.isAdmin && !canEditBooking actor b) = false := by
      rcases hperm with h | h
      · simp [h]
      · simp [h]
    have hmod : (!canModifyBooking actor now b) = true := by
      simp [hgate actor now b hb]
    simp only [handleSaveBooking, selectedBoatIdsOf, hedit, hguest, hnb, hm, hown, hmod]
    simp

/-- sample pending booking for the C4 witness. -/
def c4PendingBooking : Booking :=
  { id := 6, boat_id := 2, member_id := some 9, start_time := 100, end_time := 160
    usage_status := .pending }

/-- sample store for the C4 witness. -/
def c4PendStore : Store :=
  { bookings := [c4PendingBooking], templates := [], exceptions := [], confirmations := [] }

/-- sample edit request for the C4 witness. -/
def c4EditReq : SaveRequest :=
  { bookingBoatIds := []
    bookingBoatId := some 2
    bookingMemberId := some 9
    date := 0
    startTod := 500
    endTod := 560
    editing := some c4PendingBooking }

/-- witness for the amended C4 at concrete inputs. -/
theorem C4_immutability_gate_witness :
    handleDeleteBooking c4Actor 0 c4PendStore c4PendingBooking =
        .error .immutableBooking ∧
      handleSaveBooking c4Actor 0 c4PendStore c4EditReq = .error .immutableBooking := by
  constructor
  · exact C4_immutability_gate.1 c4Actor 0 c4PendStore c4PendingBooking (Or.inl rfl)
  · exact C4_immutability_gate.2 c4Actor 0 c4PendStore c4EditReq c4PendingBooking rfl rfl
      (by decide) (by decide) (Or.inr (by decide)) (Or.inl rfl)

/-- sample already-resolved booking for C7: usage_status 'confirmed'. -/
def c7Booking : Booking :=
  { id := 3, boat_id := 1, member_id := some 4, start_time := 0, end_time := 60
    usage_status := .confirmed, usage_confirmed_at := some 70, usage_confirmed_by := some 4 }

/-- sample store for C7. -/
def c7Store : Store :=
  { bookings := [c7Booking], templates := [], exceptions := [], confirmations := [] }

/-- sample owner actor for C7. -/
def c7Actor : Actor := { memberId := some 4, isAdmin := false, isGuest := false }

/-- counterexample for C7: a ResolveUsage call on a booking whose usage_status is
no longer 'pending' completes successfully and returns the store unchanged — the
conditional update matches no row, but the handler reports success rather than
failing, contradicting the claim that the subsequent call fails. -/
theorem C7_second_resolve_succeeds :
    c7Booking.usage_status ≠ .pending ∧
      handleResolvePendingBooking c7Actor 80 c7Store c7Booking .confirmed =
        .ok c7Store := by
  exact ⟨by decide, rfl⟩

/-- C7 (amended): ResolveUsage is a conditional update: for a resolvable actor
the write (status, usage_confirmed_at, usage_confirmed_by) lands exactly on the
rows matching the booking's id whose current usage_status is 'pending', and
every other row is untouched; when no row for the booking is still 'pending'
(a repeated call), the operation changes no state but completes successfully
instead of failing. -/
theorem C7_resolve_usage_conditional :
    (∀ (actor : Actor) (now : Int) (s : Store) (b : Booking) (o : ResolveOutcome)
       (mid : Nat) (s' : Store),
       actor.memberId = some mid →
       handleResolvePendingBooking actor now s b o = .ok s' →
       ∀ (i : Nat) (row : Booking), s.bookings[i]? = some row →
         (¬(row.id = b.id ∧ row.usage_status = .pending) →
           s'.bookings[i]? = some row) ∧
         (row.id = b.id ∧ row.usage_status = .pending →
           s'.bookings[i]? = some
             { row with
               usage_status := o.toUsage
               usage_confirmed_at := some now
               usage_confirmed_by := some mid }))
    ∧ (∀ (actor : Actor) (now : Int) (s : Store) (b : Booking) (o : ResolveOutcome)
         (mid : Nat),
       actor.memberId = some mid →
       (actor.isAdmin = true ∨ b.member_id = some mid) →
       (∀ row ∈ s.bookings, row.id = b.id → row.usage_status ≠ .pending) →
       handleResolvePendingBooking actor now s b o = .ok s) := by
  constructor
  · intro actor now s b o mid s' hmid hok i row hrow
    simp only [handleResolvePendingBooking, hmid] at hok
    split at hok
    · exact Except.noConfusion hok
    · have hs' := (Except.ok.inj hok).symm
      subst hs'
      constructor
      · intro hnot
        have hcond : ¬(row.id == b.id && row.usage_status == UsageStatus.pending) = true := by
          intro hc
          simp only [Bool.and_eq_true, beq_iff_eq] at hc
          exact hnot hc
        simp only [List.getElem?_map, hrow, Option.map_some']
        rw [if_neg hcond]
      · rintro ⟨h1, h2⟩
        have hcond : (row.id == b.id && row.usage_status == UsageStatus.pending) = true := by
          simp [h1, h2]
        simp only [List.getElem?_map, hrow, Option.map_some']
        rw [if_pos hcond]
  · intro actor now s b o mid hmid hperm hnone
    have hperm' : (!(actor.isAdmin || b.member_id == some mid)) = false := by
      rcases hperm with h | h
      · simp [h]
      · simp [h]
    simp only [handleResolvePendingBooking, hmid, hperm', Bool.false_eq_true,
      if_false]
    have hmap : s.bookings.map (fun row =>
        if row.id == b.id && row.usage_status == UsageStatus.pending then
          { row with
            usage_status := o.toUsage
            usage_confirmed_at := some now
            usage_confirmed_by := some mid }
        else row) = s.bookings := by
      conv_rhs => rw [show s.bookings = s.bookings.map id from (List.map_id s.bookings).symm]
      refine List.map_congr_left ?_
      intro row hrow
      have hcond : ¬(row.id == b.id && row.usage_status == UsageStatus.pending) = true := by
        intro hc
        simp only [Bool.and_eq_true, beq_iff_eq] at hc
        exact hnone row hrow hc.1 hc.2
      rw [if_neg hcond]
      rfl
    rw [hmap]

/-- sample pending booking for the C7 witness. -/
def c7PendBooking : Booking :=
  { id := 8, boat_id := 1, member_id := some 4, start_time := 0, end_time := 60
    usage_status := .pending }

/-- sample store for the C7 witness. -/
def c7PendStore : Store :=
  { bookings := [c7PendBooking], templates := [], exceptions := [], confirmations := [] }

/-- store after the C7 witness resolution. -/
def c7PendResolved : Store :=
  { bookings := [{ c7PendBooking with
      usage_status := .confirmed
      usage_confirmed_at := some 70
      usage_confirmed_by := some 4 }]
    templates := [], exceptions := [], confirmations := [] }

/-- witness for the amended C7 at concrete inputs. -/
theorem C7_resolve_usage_conditional_witness :
    c7PendResolved.bookings[0]? = some
        { c7PendBooking with
          usage_status := .confirmed
          usage_confirmed_at := some 70
          usage_confirmed_by := some 4 } ∧
      handleResolvePendingBooking c7Actor 80 c7Store c7Booking .confirmed = .ok c7Store := by
  constructor
  · exact (C7_resolve_usage_conditional.1 c7Actor 70 c7PendStore c7PendBooking .confirmed 4
      c7PendResolved rfl rfl 0 c7PendBooking rfl).2 ⟨rfl, rfl⟩
  · exact C7_resolve_usage_conditional.2 c7Actor 80 c7Store c7Booking .confirmed 4 rfl
      (Or.inr rfl) (by decide)

/-- conflict checker of the booking-creation path (App.tsx lines 2114–2170):
a reservation passes iff the template-conflict filter AND the booking-overlap
query both come back empty. -/
def saveConflictCheckPasses (s : Store) (selectedBoatIds : List Nat) (date : Nat)
    (startT endT : Int) (excludeId : Option Nat) : Bool :=
  ((templateConflictRows (dayTemplates s.templates date) selectedBoatIds date
      startT endT).length == 0)
    && ((bookingConflictRows s.bookings selectedBoatIds startT endT excludeId).length == 0)

/-- sample template for C6: boat 7, weekday 2 (day 5 is a weekday-2 date),
09:00–10:00. -/
def c6Template : TemplateBooking :=
  { id := 11, boat_id := some 7, member_id := some 2, weekday := 2
    start_time := 540, end_time := 600 }

/-- sample store for C6: just the template; no bookings, no exceptions. -/
def c6Store : Store :=
  { bookings := [], templates := [c6Template], exceptions := [], confirmations := []
    nextBookingId := 20, nextConfId := 30 }

/-- counterexample for C6: on a store with no bookings, resolving the template
occurrence as confirmed succeeds (only the booking-overlap query runs), while
the booking-creation conflict checker would reject the very same boat and
interval, because that checker also tests template occurrences and the template
itself overlaps. The two paths therefore do not accept/reject identically. -/
theorem C6_resolve_skips_template_check :
    (resolveTemplateOccurrence 0 c6Store c6Template none 2 5 .confirmed).isOk = true ∧
      saveConflictCheckPasses c6Store [7] 5 (toDateTime 5 540) (toDateTime 5 600)
        none = false := by
  exact ⟨rfl, by decide⟩

/-- C6 (amended): the confirmed-resolution path runs only the bookings-overlap
portion of the conflict check, not the template-occurrence portion: it succeeds
exactly when its bookings query is empty, and that query coincides with the
booking-creation path's bookings query for the single boat with no excluded id. -/
theorem C6_resolve_conflict_check :
    (∀ (now : Int) (s : Store) (t : TemplateBooking) (confId : Option Nat)
       (mid dOcc boatId : Nat),
       t.boat_id = some boatId →
       ((∃ s2, resolveTemplateOccurrence now s t confId mid dOcc .confirmed = .ok s2) ↔
         resolveConflictRows s.bookings boatId (toDateTime dOcc t.start_time)
           (toDateTime dOcc t.end_time) = []))
    ∧ (∀ (bookings : List Booking) (boatId : Nat) (startT endT : Int),
       resolveConflictRows bookings boatId startT endT =
         bookingConflictRows bookings [boatId] startT endT none) := by
  constructor
  · intro now s t confId mid dOcc boatId hboat
    constructor
    · rintro ⟨s2, hok⟩
      simp only [resolveTemplateOccurrence, hboat] at hok
      split at hok
      · exact Except.noConfusion hok
      · rename_i hc
        exact List.length_eq_zero.mp (Nat.eq_zero_of_not_pos hc)
    · intro hnil
      simp only [resolveTemplateOccurrence, hboat, hnil, List.length_nil]
      exact ⟨_, rfl⟩
  · intro bookings boatId startT endT
    unfold resolveConflictRows bookingConflictRows
    refine List.filter_congr ?_
    intro b _
    simp only [List.contains]
    by_cases h : b.boat_id = boatId <;> simp [h]

/-- witness for the amended C6 at concrete inputs. -/
theorem C6_resolve_conflict_check_witness :
    (∃ s2, resolveTemplateOccurrence 0 c6Store c6Template none 2 5 .confirmed = .ok s2) ∧
      resolveConflictRows [] 7 (toDateTime 5 540) (toDateTime 5 600) =
        bookingConflictRows [] [7] (toDateTime 5 540) (toDateTime 5 600) none := by
  constructor
  · exact (C6_resolve_conflict_check.1 0 c6Store c6Template none 2 5 7 rfl).mpr rfl
  · exact C6_resolve_conflict_check.2 [] 7 (toDateTime 5 540) (toDateTime 5 600)

/-! ### C3 helper lemmas -/

/-- the confirmations write of the resolver never touches booking rows. -/
lemma resolveConfWrite_bookings (now : Int) (s : Store) (tid : Nat)
    (confId : Option Nat) (mid d : Nat) (st : ConfStatus) (bid : Option Nat) :
    (resolveConfWrite now s tid confId mid d st bid).bookings = s.bookings := by
  cases confId with
  | some cid => rfl
  | none =>
    simp only [resolveConfWrite]
    split <;> rfl

/-- looking up a key commutes with a map that preserves both key columns. -/
lemma confFind_map_keyPres (l : List TemplateConfirmation)
    (f : TemplateConfirmation → TemplateConfirmation)
    (hf : ∀ c, (f c).template_id = c.template_id ∧ (f c).occurrence_date = c.occurrence_date)
    (tid d : Nat) :
    confFind (l.map f) tid d = (confFind l tid d).map f := by
  induction l with
  | nil => rfl
  | cons c cs ih =>
    unfold confFind at *
    simp only [List.map_cons, List.find?_cons]
    have hkey : ((f c).template_id == tid && (f c).occurrence_date == d) =
        (c.template_id == tid && c.occurrence_date == d) := by
      rw [(hf c).1, (hf c).2]
    rw [hkey]
    cases hmatch : (c.template_id == tid && c.occurrence_date == d) with
    | true => simp
    | false => simpa using ih

/-- a key with at least one matching row has a first match, which matches. -/
lemma confFind_eq_some_of_any (l : List TemplateConfirmation) (tid d : Nat)
    (hany : (l.any fun c => c.template_id == tid && c.occurrence_date == d) = true) :
    ∃ cf, confFind l tid d = some cf ∧ cf ∈ l ∧
      cf.template_id = tid ∧ cf.occurrence_date = d := by
  obtain ⟨c0, hc0mem, hc0key⟩ := List.any_eq_true.mp hany
  have hsome :
      (List.find? (fun c => c.template_id == tid && c.occurrence_date == d) l).isSome
        = true :=
    List.find?_isSome.mpr ⟨c0, hc0mem, hc0key⟩
  obtain ⟨cf, hcf⟩ := Option.isSome_iff_exists.mp hsome
  have hk := List.find?_some hcf
  simp only [Bool.and_eq_true, beq_iff_eq] at hk
  exact ⟨cf, hcf, List.mem_of_find?_eq_some hcf, hk.1, hk.2⟩

/-- well-formed reference of a confirmation id: some row carries the id, and a
row carries it exactly when it is the row of the given template and date (the
uniqueness the callers rely on: they pass the id of the confirmation row for
that occurrence). -/
def confIdRefersTo (l : List TemplateConfirmation) (cid tid d : Nat) : Prop :=
  (∃ c ∈ l, c.id = cid) ∧
    ∀ c ∈ l, (c.id = cid ↔ (c.template_id = tid ∧ c.occurrence_date = d))

/-- after the resolver's confirmations write, the row for the resolved
occurrence carries the written status. -/
lemma confirmationStatus_resolveConfWrite (now : Int) (s : Store) (tid : Nat)
    (confId : Option Nat) (mid d : Nat) (st : ConfStatus) (bid : Option Nat)
    (h : match confId with
         | none => True
         | some cid => confIdRefersTo s.confirmations cid tid d) :
    confirmationStatus (resolveConfWrite now s tid confId mid d st bid).confirmations
      tid d = some st := by
  cases confId with
  | some cid =>
    obtain ⟨⟨c0, hc0mem, hc0id⟩, hiff⟩ := h
    have hany : (s.confirmations.any fun c =>
        c.template_id == tid && c.occurrence_date == d) = true := by
      refine List.any_eq_true.mpr ⟨c0, hc0mem, ?_⟩
      have := (hiff c0 hc0mem).mp hc0id
      simp [this.1, this.2]
    obtain ⟨cf, hcf, hcfmem, hk1, hk2⟩ := confFind_eq_some_of_any _ _ _ hany
    have hcfid : cf.id = cid := (hiff cf hcfmem).mpr ⟨hk1, hk2⟩
    simp only [resolveConfWrite, confirmationStatus]
    rw [confFind_map_keyPres]
    · rw [hcf]
      simp [hcfid]
    · intro c
      by_cases hc : (c.id == cid) = true <;> simp [hc]
  | none =>
    simp only [resolveConfWrite, confirmationStatus]
    cases hany : s.confirmations.any fun c =>
        c.template_id == tid && c.occurrence_date == d with
    | true =>
      rw [if_pos (by simp [hany])]
      rw [confFind_map_keyPres]
      · obtain ⟨cf, hcf, hcfmem, hk1, hk2⟩ := confFind_eq_some_of_any _ _ _ hany
        rw [hcf]
        simp [hk1, hk2]
      · intro c
        by_cases hc : (c.template_id == tid && c.occurrence_date == d) = true <;>
          simp [hc]
    | false =>
      rw [if_neg (by simp [hany])]
      simp only [confFind]
      rw [List.find?_append]
      have hnone : s.confirmations.find?
          (fun c => c.template_id == tid && c.occurrence_date == d) = none :=
        List.find?_eq_none.mpr (List.any_eq_false.mp hany)
      rw [hnone]
      simp

/-- C3: confirmation idempotence. For a template with a boat and a well-formed
occurrence interval, when a confirmed resolution succeeds it inserts exactly one
new booking row and leaves the occurrence's TemplateConfirmation in status
'confirmed'; a second confirmed resolution of the same occurrence then fails
with the booking-conflict error (raised before any write) against the booking
created by the first call, so the state is unchanged by the second call. The
confirmation-id argument, when given, must reference the occurrence's
confirmation row, as the source's callers do. -/
theorem C3_confirmation_idempotence :
    ∀ (now1 now2 : Int) (s s1 : Store) (t : TemplateBooking)
      (confId confId2 : Option Nat) (mid mid2 dOcc boatId : Nat),
      t.boat_id = some boatId →
      t.start_time < t.end_time →
      (match confId with
       | none => True
       | some cid => confIdRefersTo s.confirmations cid t.id dOcc) →
      resolveTemplateOccurrence now1 s t confId mid dOcc .confirmed = .ok s1 →
      (∃ nb, s1.bookings = s.bookings ++ [nb]) ∧
        confirmationStatus s1.confirmations t.id dOcc = some .confirmed ∧
        resolveTemplateOccurrence now2 s1 t confId2 mid2 dOcc .confirmed =
          .error .bookingConflict := by
  intro now1 now2 s s1 t confId confId2 mid mid2 dOcc boatId hboat hlt href hok
  simp only [resolveTemplateOccurrence, hboat] at hok
  split at hok
  · exact Except.noConfusion hok
  · have hs1 := Except.ok.inj hok
    subst hs1
    refine ⟨⟨{ id := s.nextBookingId
               boat_id := boatId
               member_id := some mid
               start_time := toDateTime dOcc t.start_time
               end_time := toDateTime dOcc t.end_time }, ?_⟩, ?_, ?_⟩
    · rw [resolveConfWrite_bookings]
    · exact confirmationStatus_resolveConfWrite now1 _ t.id confId mid dOcc
        .confirmed (some s.nextBookingId) href
    · have hnbmem :
          ({ id := s.nextBookingId
             boat_id := boatId
             member_id := some mid
             start_time := toDateTime dOcc t.start_time
             end_time := toDateTime dOcc t.end_time } : Booking) ∈
            resolveConflictRows
              (s.bookings ++
                [{ id := s.nextBookingId
                   boat_id := boatId
                   member_id := some mid
                   start_time := toDateTime dOcc t.start_time
                   end_time := toDateTime dOcc t.end_time }])
              boatId (toDateTime dOcc t.start_time) (toDateTime dOcc t.end_time) := by
        rw [mem_resolveConflictRows]
        refine ⟨List.mem_append_right _ (List.mem_singleton.mpr rfl), rfl, ?_, ?_⟩
        · exact toDateTime_lt_iff.mpr hlt
        · exact toDateTime_lt_iff.mpr hlt
      simp only [resolveTemplateOccurrence, hboat, resolveConfWrite_bookings]
      rw [if_pos (List.length_pos_of_mem hnbmem)]

/-- sample template for the C3 witness: boat 4, weekday 2, 09:00–10:00. -/
def c3Template : TemplateBooking :=
  { id := 13, boat_id := some 4, member_id := some 2, weekday := 2
    start_time := 540, end_time := 600 }

/-- sample store for the C3 witness: no bookings, no confirmation row yet. -/
def c3Store : Store :=
  { bookings := [], templates := [c3Template], exceptions := [], confirmations := []
    nextBookingId := 50, nextConfId := 60 }

/-- store after the first confirmed resolution in the C3 witness. -/
def c3After : Store :=
  { bookings := [{ id := 50, boat_id := 4, member_id := some 2
                   start_time := toDateTime 5 540, end_time := toDateTime 5 600 }]
    templates := [c3Template]
    exceptions := [{ template_id := 13, exception_date := 5 }]
    confirmations := [{ id := 60, template_id := 13, member_id := some 2
                        occurrence_date := 5, status := .confirmed
                        booking_id := some 50, responded_at := some 10 }]
    nextBookingId := 51
    nextConfId := 61 }

/-- witness for C3 at concrete inputs. -/
theorem C3_confirmation_idempotence_witness :
    (∃ nb, c3After.bookings = c3Store.bookings ++ [nb]) ∧
      confirmationStatus c3After.confirmations c3Template.id 5 = some .confirmed ∧
      resolveTemplateOccurrence 20 c3After c3Template none 3 5 .confirmed =
        .error .bookingConflict :=
  C3_confirmation_idempotence 10 20 c3Store c3After c3Template none none 2 3 5 4
    rfl (by decide) trivial rfl

/-! ### C1 helper lemmas -/

/-- a booking whose conflict query came back empty overlaps no row on a selected
boat (other than an excluded row). -/
lemma of_bookingConflictRows_nil {bookings : List Booking} {selected : List Nat}
    {startT endT : Int} {excludeId : Option Nat}
    (h : bookingConflictRows bookings selected startT endT excludeId = []) :
    ∀ b ∈ bookings, b.boat_id ∈ selected →
      (∀ i, excludeId = some i → b.id ≠ i) →
      ¬(b.start_time < endT ∧ b.end_time > startT) := by
  intro b hb hboat hexc hcontra
  have hmem : b ∈ bookingConflictRows bookings selected startT endT excludeId := by
    rw [mem_bookingConflictRows]
    exact ⟨hb, hboat, hcontra.1, hcontra.2, hexc⟩
  rw [h] at hmem
  exact absurd hmem (List.not_mem_nil b)

/-- an occurrence whose resolve-time conflict query came back empty overlaps no
row on the template's boat. -/
lemma of_resolveConflictRows_nil {bookings : List Booking} {boatId : Nat}
    {startT endT : Int}
    (h : resolveConflictRows bookings boatId startT endT = []) :
    ∀ b ∈ bookings, b.boat_id = boatId →
      ¬(b.start_time < endT ∧ b.end_time > startT) := by
  intro b hb hboat hcontra
  have hmem : b ∈ resolveConflictRows bookings boatId startT endT := by
    rw [mem_resolveConflictRows]
    exact ⟨hb, hboat, hcontra.1, hcontra.2⟩
  rw [h] at hmem
  exact absurd hmem (List.not_mem_nil b)

/-- every row created by the create-path insert sits on one of the selected
boats and carries the requested interval. -/
lemma mem_insertNewBookings {startId : Nat} {boatIds : List Nat} {mid : Nat}
    {sT eT : Int} {b : Booking} :
    b ∈ insertNewBookings startId boatIds mid sT eT →
    b.boat_id ∈ boatIds ∧ b.start_time = sT ∧ b.end_time = eT := by
  induction boatIds generalizing startId with
  | nil =>
    intro hb
    simp [insertNewBookings] at hb
  | cons x xs ih =>
    intro hb
    simp only [insertNewBookings, List.mem_cons] at hb
    rcases hb with h | h
    · subst h
      exact ⟨List.mem_cons_self x xs, rfl, rfl⟩
    · obtain ⟨h1, h2, h3⟩ := ih h
      exact ⟨List.mem_cons_of_mem x h1, h2, h3⟩

/-- the rows created by the create-path insert are pairwise compatible when the
selected boats are distinct: they share one interval but sit on distinct boats. -/
lemma insertNewBookings_pairwise {startId : Nat} {boatIds : List Nat} {mid : Nat}
    {sT eT : Int} (hnodup : boatIds.Nodup) :
    (insertNewBookings startId boatIds mid sT eT).Pairwise bookingsCompatible := by
  induction boatIds generalizing startId with
  | nil => simp [insertNewBookings]
  | cons x xs ih =>
    simp only [insertNewBookings]
    rw [List.pairwise_cons]
    obtain ⟨hx, hxs⟩ := List.nodup_cons.mp hnodup
    refine ⟨?_, ih hxs⟩
    intro b hb
    obtain ⟨hboat, _, _⟩ := mem_insertNewBookings hb
    intro _ _ hbb
    exfalso
    apply hx
    rw [show x = b.boat_id from hbb]
    exact hboat

/-- an accepted create request earned its success: the member resolved, the
interval is well-formed, the conflict query was empty, and the new rows are
appended. -/
lemma handleSaveBooking_ok_create {actor : Actor} {now : Int} {s : Store}
    {r : SaveRequest} {s2 : Store} (hedit : r.editing = none)
    (hok : handleSaveBooking actor now s r = .ok s2) :
    ∃ mid,
      toDateTime r.date r.startTod < toDateTime r.date r.endTod ∧
      bookingConflictRows s.bookings r.bookingBoatIds (toDateTime r.date r.startTod)
        (toDateTime r.date r.endTod) none = [] ∧
      s2.bookings = s.bookings ++
        insertNewBookings s.nextBookingId r.bookingBoatIds mid
          (toDateTime r.date r.startTod) (toDateTime r.date r.endTod) := by
  simp only [handleSaveBooking, selectedBoatIdsOf, hedit, Option.map_none',
    Bool.and_false] at hok
  split at hok
  · exact Except.noConfusion hok
  split at hok
  · exact Except.noConfusion hok
  split at hok
  · exact Except.noConfusion hok
  rename_i mid hm
  split at hok
  · exact Except.noConfusion hok
  split at hok
  · exact Except.noConfusion hok
  split at hok
  · exact Except.noConfusion hok
  split at hok
  · exact Except.noConfusion hok
  rename_i hend
  split at hok
  · exact Except.noConfusion hok
  split at hok
  · exact Except.noConfusion hok
  rename_i hbc
  have hs2 := Except.ok.inj hok
  subst hs2
  exact ⟨mid, not_le.mp hend,
    List.length_eq_zero.mp (Nat.eq_zero_of_not_pos hbc), rfl⟩

/-- an accepted edit request earned its success: a boat was selected, the
interval is well-formed, the conflict query (excluding the edited row) was
empty, and the edited row was rewritten in place. -/
lemma handleSaveBooking_ok_edit {actor : Actor} {now : Int} {s : Store}
    {r : SaveRequest} {s2 : Store} {b : Booking} (hedit : r.editing = some b)
    (hok : handleSaveBooking actor now s r = .ok s2) :
    ∃ mid nb, r.bookingBoatId = some nb ∧
      toDateTime r.date r.startTod < toDateTime r.date r.endTod ∧
      bookingConflictRows s.bookings [nb] (toDateTime r.date r.startTod)
        (toDateTime r.date r.endTod) (some b.id) = [] ∧
      s2.bookings = s.bookings.map
        (updateBookingRow b.id nb mid (toDateTime r.date r.startTod)
          (toDateTime r.date r.endTod)) := by
  cases hnb : r.bookingBoatId with
  | none =>
    simp only [handleSaveBooking, selectedBoatIdsOf, hedit, hnb] at hok
    split at hok
    · exact Except.noConfusion hok
    · split at hok
      · exact Except.noConfusion hok
      · rename_i hlen
        exact absurd rfl hlen
  | some nb =>
    simp only [handleSaveBooking, selectedBoatIdsOf, hedit, hnb, Option.map_some'] at hok
    split at hok
    · exact Except.noConfusion hok
    split at hok
    · exact Except.noConfusion hok
    split at hok
    · exact Except.noConfusion hok
    rename_i mid hm
    split at hok
    · exact Except.noConfusion hok
    split at hok
    · exact Except.noConfusion hok
    split at hok
    · exact Except.noConfusion hok
    split at hok
    · exact Except.noConfusion hok
    split at hok
    · exact Except.noConfusion hok
    rename_i hend
    split at hok
    · exact Except.noConfusion hok
    split at hok
    · exact Except.noConfusion hok
    rename_i hbc
    have hs2 := Except.ok.inj hok
    subst hs2
    exact ⟨mid, nb, rfl, not_le.mp hend,
      List.length_eq_zero.mp (Nat.eq_zero_of_not_pos hbc), rfl⟩

/-- C1: the no-double-booking invariant is preserved by booking create/update
(which reject with a conflict when any existing booking on a selected boat has
`start_time < newEnd` and `end_time > newStart`) and by confirming a template
occurrence (which runs the same overlap pre-check over the template's boat
before inserting). The store's primary-key uniqueness and the distinctness of
the multi-select boat list are facts the database guarantees. -/
theorem C1_no_double_booking_preserved :
    (∀ (actor : Actor) (now : Int) (s : Store) (r : SaveRequest) (s2 : Store),
       uniqueIds s.bookings → r.bookingBoatIds.Nodup →
       noDoubleBooking s.bookings →
       handleSaveBooking actor now s r = .ok s2 →
       noDoubleBooking s2.bookings)
    ∧ (∀ (now : Int) (s s2 : Store) (t : TemplateBooking) (confId : Option Nat)
         (mid dOcc : Nat),
       noDoubleBooking s.bookings →
       resolveTemplateOccurrence now s t confId mid dOcc .confirmed = .ok s2 →
       noDoubleBooking s2.bookings) := by
  constructor
  · intro actor now s r s2 huniq hnodup hinv hok
    cases hedit : r.editing with
    | none =>
      obtain ⟨mid, _hlt, hconf, hbk⟩ := handleSaveBooking_ok_create hedit hok
      rw [noDoubleBooking, hbk, List.pairwise_append]
      refine ⟨hinv, insertNewBookings_pairwise hnodup, ?_⟩
      intro a ha b hb
      obtain ⟨hboat, hst, hen⟩ := mem_insertNewBookings hb
      intro _ _ hab hover
      rw [hst, hen] at hover
      exact of_bookingConflictRows_nil hconf a ha (by rw [hab]; exact hboat)
        (fun _ h => Option.noConfusion h) hover
    | some b =>
      obtain ⟨mid, nb, _hnb, _hlt, hconf, hbk⟩ := handleSaveBooking_ok_edit hedit hok
      rw [noDoubleBooking, hbk]
      refine List.pairwise_map.mpr
        (List.Pairwise.imp_of_mem ?_ (hinv.and huniq))
      intro x y hxmem hymem hr
      obtain ⟨hcompat, hne⟩ := hr
      unfold updateBookingRow
      by_cases hx : (x.id == b.id) = true
      · by_cases hy : (y.id == b.id) = true
        · exfalso
          rw [beq_iff_eq] at hx hy
          exact hne (hx.trans hy.symm)
        · rw [if_pos hx, if_neg hy]
          intro _ _ hboat hover
          have hyid : y.id ≠ b.id := by
            intro hc
            exact hy (beq_iff_eq.mpr hc)
          exact of_bookingConflictRows_nil hconf y hymem
            (List.mem_singleton.mpr hboat.symm)
            (fun i hi => by
              rw [Option.some.injEq] at hi
              rw [← hi]
              exact hyid)
            ⟨hover.2, hover.1⟩
      · by_cases hy : (y.id == b.id) = true
        · rw [if_neg hx, if_pos hy]
          intro _ _ hboat hover
          have hxid : x.id ≠ b.id := by
            intro hc
            exact hx (beq_iff_eq.mpr hc)
          exact of_bookingConflictRows_nil hconf x hxmem
            (List.mem_singleton.mpr hboat)
            (fun i hi => by
              rw [Option.some.injEq] at hi
              rw [← hi]
              exact hxid)
            hover
        · rw [if_neg hx, if_neg hy]
          exact hcompat
  · intro now s s2 t confId mid dOcc hinv hok
    cases hboat : t.boat_id with
    | none =>
      simp only [resolveTemplateOccurrence, hboat] at hok
      exact Except.noConfusion hok
    | some boatId =>
      simp only [resolveTemplateOccurrence, hboat] at hok
      split at hok
      · exact Except.noConfusion hok
      rename_i hc
      have hnil : resolveConflictRows s.bookings boatId
          (toDateTime dOcc t.start_time) (toDateTime dOcc t.end_time) = [] :=
        List.length_eq_zero.mp (Nat.eq_zero_of_not_pos hc)
      have hs2 := Except.ok.inj hok
      subst hs2
      rw [noDoubleBooking, resolveConfWrite_bookings]
      show List.Pairwise bookingsCompatible (s.bookings ++ [_])
      rw [List.pairwise_append]
      refine ⟨hinv, List.pairwise_singleton _ _, ?_⟩
      intro a ha nb hnb
      rw [List.mem_singleton] at hnb
      subst hnb
      intro _ _ hab hover
      exact of_resolveConflictRows_nil hnil a ha hab hover

/-- sample existing booking for the C1 witness: boat 1, 09:00–10:00 on day 5. -/
def c1Booking : Booking :=
  { id := 1, boat_id := 1, member_id := some 2
    start_time := toDateTime 5 540, end_time := toDateTime 5 600 }

/-- sample store for the C1 witness. -/
def c1Store : Store :=
  { bookings := [c1Booking], templates := [], exceptions := [], confirmations := []
    nextBookingId := 2 }

/-- sample create request for the C1 witness: boat 2, same times, no conflict. -/
def c1Req : SaveRequest :=
  { bookingBoatIds := [2]
    bookingBoatId := none
    bookingMemberId := some 3
    date := 5
    startTod := 540
    endTod := 600
    editing := none }

/-- sample admin actor for the C1 witness. -/
def c1Actor : Actor := { memberId := some 2, isAdmin := true, isGuest := false }

/-- store after the C1 witness creation. -/
def c1After : Store :=
  { bookings := [c1Booking,
      { id := 2, boat_id := 2, member_id := some 3
        start_time := toDateTime 5 540, end_time := toDateTime 5 600 }]
    templates := [], exceptions := [], confirmations := []
    nextBookingId := 3 }

/-- sample template for the C1 witness: boat 3, weekday 2, 10:00–11:00. -/
def c1Template : TemplateBooking :=
  { id := 21, boat_id := some 3, member_id := some 2, weekday := 2
    start_time := 600, end_time := 660 }

/-- store after the C1 witness occurrence confirmation. -/
def c1Resolved : Store :=
  { bookings := [c1Booking,
      { id := 2, boat_id := 3, member_id := some 2
        start_time := toDateTime 5 600, end_time := toDateTime 5 660 }]
    templates := []
    exceptions := [{ template_id := 21, exception_date := 5 }]
    confirmations := [{ id := 0, template_id := 21, member_id := some 2
                        occurrence_date := 5, status := .confirmed
                        booking_id := some 2, responded_at := some 0 }]
    nextBookingId := 3
    nextConfId := 1 }

/-- witness for C1 at concrete inputs. -/
theorem C1_no_double_booking_preserved_witness :
    noDoubleBooking c1After.bookings ∧ noDoubleBooking c1Resolved.bookings := by
  constructor
  · exact C1_no_double_booking_preserved.1 c1Actor 0 c1Store c1Req c1After
      (by decide) (by decide) (by decide) rfl
  · exact C1_no_double_booking_preserved.2 0 c1Store c1Resolved c1Template none 2 5
      (by decide) rfl

/-! ### C8 helper lemmas -/

/-- a map that preserves the key columns and the status column preserves the
status of every key. -/
lemma confirmationStatus_map_statusPres (l : List TemplateConfirmation)
    (f : TemplateConfirmation → TemplateConfirmation)
    (hf : ∀ c, (f c).template_id = c.template_id ∧
      (f c).occurrence_date = c.occurrence_date ∧ (f c).status = c.status)
    (tid d : Nat) :
    confirmationStatus (l.map f) tid d = confirmationStatus l tid d := by
  unfold confirmationStatus
  rw [confFind_map_keyPres l f (fun c => ⟨(hf c).1, (hf c).2.1⟩)]
  cases confFind l tid d with
  | none => rfl
  | some cf => simp [(hf cf).2.2]

/-- appending a row of a different key does not change a key's status. -/
lemma confirmationStatus_append_of_ne (l : List TemplateConfirmation)
    (x : TemplateConfirmation) (tid d : Nat)
    (hx : ¬(x.template_id = tid ∧ x.occurrence_date = d)) :
    confirmationStatus (l ++ [x]) tid d = confirmationStatus l tid d := by
  unfold confirmationStatus confFind
  rw [List.find?_append]
  cases hfind : l.find? fun c => c.template_id == tid && c.occurrence_date == d with
  | some cf => simp
  | none =>
    have hxkey : (x.template_id == tid && x.occurrence_date == d) = false := by
      rcases Decidable.not_and_iff_or_not.mp hx with h | h
      · simp [h]
      · simp [h]
    simp [List.find?_singleton, hxkey]

/-- a key that has a status has a matching row. -/
lemma any_of_confirmationStatus_some {l : List TemplateConfirmation} {tid d : Nat}
    {st : ConfStatus} (h : confirmationStatus l tid d = some st) :
    (l.any fun c => c.template_id == tid && c.occurrence_date == d) = true := by
  unfold confirmationStatus at h
  cases hfind : confFind l tid d with
  | none => rw [hfind] at h; exact Option.noConfusion h
  | some cf =>
    unfold confFind at hfind
    refine List.any_eq_true.mpr ⟨cf, List.mem_of_find?_eq_some hfind, ?_⟩
    exact @List.find?_some _ (fun c => c.template_id == tid && c.occurrence_date == d)
      cf l hfind

/-- invariant tracked through the sweep for one occurrence key: its
confirmation status is the given terminal status, and no removal message for it
has been dispatched while it was cancelled. -/
def sweepInv (tid dk : Nat) (st0 : ConfStatus) (st : SweepState) : Prop :=
  confirmationStatus st.store.confirmations tid dk = some st0 ∧
    ∀ n ∈ st.sent, n.kind = .removal → st0 = .cancelled →
      ¬(n.template_id = tid ∧ n.occurrence_date = dk)

/-- one sweep iteration preserves the invariant for every occurrence whose
confirmation is already terminal. -/
lemma sweepStep_preserves_inv (now : Int) (nd : Nat) (t : TemplateBooking)
    (d' : Nat) (tid dk : Nat) (st0 : ConfStatus)
    (hterm : st0 = .confirmed ∨ st0 = .cancelled)
    (st : SweepState) (hinv : sweepInv tid dk st0 st) :
    sweepInv tid dk st0 (sweepStep now nd st t d') := by
  obtain ⟨h1, h2⟩ := hinv
  cases hmid : t.member_id with
  | none =>
    simp only [sweepStep, hmid]
    exact ⟨h1, h2⟩
  | some mid =>
    simp only [sweepStep, hmid]
    by_cases hw : (getWeekdayIndex d' != t.weekday) = true
    · rw [if_pos hw]
      exact ⟨h1, h2⟩
    rw [if_neg hw]
    by_cases hex : hasException st.store.exceptions t.id d' = true
    · rw [if_pos hex]
      exact ⟨h1, h2⟩
    rw [if_neg hex]
    by_cases hd : (d' == nd) = true
    · rw [if_pos hd]
      by_cases hskip :
          ((confFind st.store.confirmations t.id d').map (fun c => c.status)
              == some ConfStatus.confirmed
            || (confFind st.store.confirmations t.id d').map (fun c => c.status)
              == some ConfStatus.cancelled) = true
      · rw [if_pos hskip]
        exact ⟨h1, h2⟩
      rw [if_neg hskip]
      cases hfind : confFind st.store.confirmations t.id d' with
      | some c =>
        simp only [hfind]
        by_cases hnote : (c.notified_at == none) = true
        · rw [if_pos hnote]
          refine ⟨?_, ?_⟩
          · dsimp only
            rw [confirmationStatus_map_statusPres]
            · exact h1
            · intro c'
              by_cases hcid : (c'.id == c.id) = true
              · rw [if_pos hcid]
                exact ⟨rfl, rfl, rfl⟩
              · rw [if_neg hcid]
                exact ⟨rfl, rfl, rfl⟩
          · intro n hn
            simp only [List.mem_append, List.mem_singleton] at hn
            rcases hn with hn | hn
            · exact h2 n hn
            · subst hn
              intro hkind
              simp at hkind
        · rw [if_neg hnote]
          exact ⟨h1, h2⟩
      | none =>
        simp only [hfind]
        split
        · refine ⟨?_, ?_⟩
          · dsimp only
            rw [confirmationStatus_map_statusPres]
            · by_cases hkey : t.id = tid ∧ d' = dk
              · obtain ⟨hk1, hk2⟩ := hkey
                subst hk1
                subst hk2
                unfold confirmationStatus at h1
                rw [hfind] at h1
                exact Option.noConfusion h1
              · rw [confirmationStatus_append_of_ne]
                · exact h1
                · intro hc
                  exact hkey ⟨hc.1, hc.2⟩
            · intro c'
              by_cases hcid : (c'.id == st.store.nextConfId) = true
              · rw [if_pos hcid]
                exact ⟨rfl, rfl, rfl⟩
              · rw [if_neg hcid]
                exact ⟨rfl, rfl, rfl⟩
          · intro n hn
            simp only [List.mem_append, List.mem_singleton] at hn
            rcases hn with hn | hn
            · exact h2 n hn
            · subst hn
              intro hkind
              simp at hkind
        · rename_i hcond
          exact absurd rfl hcond
    · rw [if_neg hd]
      by_cases hcf :
          ((confFind st.store.confirmations t.id d').map (fun c => c.status)
            == some ConfStatus.confirmed) = true
      · rw [if_pos hcf]
        exact ⟨h1, h2⟩
      rw [if_neg hcf]
      refine ⟨?_, ?_⟩
      · dsimp only
        by_cases hkey : t.id = tid ∧ d' = dk
        · obtain ⟨hk1, hk2⟩ := hkey
          subst hk1
          subst hk2
          have hst0 : st0 = .cancelled := by
            rcases hterm with h | h
            · exfalso
              apply hcf
              unfold confirmationStatus at h1
              rw [h1, h]
              simp
            · exact h
          have hany := any_of_confirmationStatus_some h1
          simp only [sweepCancelUpsert]
          rw [if_pos hany]
          unfold confirmationStatus
          rw [confFind_map_keyPres]
          · unfold confirmationStatus at h1
            cases hfind2 : confFind st.store.confirmations t.id d' with
            | none =>
              rw [hfind2] at h1
              exact Option.noConfusion h1
            | some cf =>
              have hkeytrue :
                  (cf.template_id == t.id && cf.occurrence_date == d') = true := by
                unfold confFind at hfind2
                exact @List.find?_some _
                  (fun c => c.template_id == t.id && c.occurrence_date == d')
                  cf st.store.confirmations hfind2
              simp only [Option.map_some']
              rw [if_pos hkeytrue]
              rw [hst0]
          · intro c
            by_cases hc : (c.template_id == t.id && c.occurrence_date == d') = true
            · rw [if_pos hc]
              exact ⟨rfl, rfl⟩
            · rw [if_neg hc]
              exact ⟨rfl, rfl⟩
        · simp only [sweepCancelUpsert]
          by_cases hany : (st.store.confirmations.any fun c =>
              c.template_id == t.id && c.occurrence_date == d') = true
          · rw [if_pos hany]
            unfold confirmationStatus
            rw [confFind_map_keyPres]
            · unfold confirmationStatus at h1
              cases hfind2 : confFind st.store.confirmations tid dk with
              | none =>
                rw [hfind2] at h1
                exact Option.noConfusion h1
              | some cf =>
                have hcfkey :
                    (cf.template_id == tid && cf.occurrence_date == dk) = true := by
                  unfold confFind at hfind2
                  exact @List.find?_some _
                    (fun c => c.template_id == tid && c.occurrence_date == dk)
                    cf st.store.confirmations hfind2
                simp only [Bool.and_eq_true, beq_iff_eq] at hcfkey
                have hcond :
                    ¬(cf.template_id == t.id && cf.occurrence_date == d') = true := by
                  intro hc
                  simp only [Bool.and_eq_true, beq_iff_eq] at hc
                  exact hkey ⟨hc.1.symm.trans hcfkey.1, hc.2.symm.trans hcfkey.2⟩
                rw [hfind2] at h1
                simp only [Option.map_some'] at h1 ⊢
                rw [if_neg hcond]
                exact h1
            · intro c
              by_cases hc : (c.template_id == t.id && c.occurrence_date == d') = true
              · rw [if_pos hc]
                exact ⟨rfl, rfl⟩
              · rw [if_neg hc]
                exact ⟨rfl, rfl⟩
          · rw [if_neg hany]
            rw [confirmationStatus_append_of_ne]
            · exact h1
            · intro hc
              exact hkey ⟨hc.1, hc.2⟩
      · intro n hn
        dsimp only at hn
        by_cases hguard :
            ((confFind st.store.confirmations t.id d').map (fun c => c.status)
              != some ConfStatus.cancelled) = true
        · rw [if_pos hguard] at hn
          simp only [List.mem_append, List.mem_singleton] at hn
          rcases hn with hn | hn
          · exact h2 n hn
          · subst hn
            intro _ hst0 hkeys
            obtain ⟨hk1, hk2⟩ := hkeys
            apply absurd hguard
            unfold confirmationStatus at h1
            rw [show t.id = tid from hk1, show d' = dk from hk2, h1, hst0]
            simp
        · rw [if_neg hguard] at hn
          exact h2 n hn

/-- the inner fold over the sweep's dates preserves the invariant. -/
lemma sweepDates_preserves_inv (now : Int) (nd : Nat) (t : TemplateBooking)
    (tid dk : Nat) (st0 : ConfStatus)
    (hterm : st0 = .confirmed ∨ st0 = .cancelled) :
    ∀ (dates : List Nat) (st : SweepState), sweepInv tid dk st0 st →
      sweepInv tid dk st0
        (dates.foldl (fun st d' => sweepStep now nd st t d') st) := by
  intro dates
  induction dates with
  | nil =>
    intro st h
    exact h
  | cons d' rest ih =>
    intro st h
    exact ih _ (sweepStep_preserves_inv now nd t d' tid dk st0 hterm st h)

/-- the outer fold over the sweep's templates preserves the invariant. -/
lemma sweepTemplates_preserves_inv (now : Int) (nd : Nat) (tid dk : Nat)
    (st0 : ConfStatus) (hterm : st0 = .confirmed ∨ st0 = .cancelled)
    (dates : List Nat) :
    ∀ (ts : List TemplateBooking) (st : SweepState), sweepInv tid dk st0 st →
      sweepInv tid dk st0
        (ts.foldl (fun st t =>
          dates.foldl (fun st d' => sweepStep now nd st t d') st) st) := by
  intro ts
  induction ts with
  | nil =>
    intro st h
    exact h
  | cons t rest ih =>
    intro st h
    exact ih _ (sweepDates_preserves_inv now nd t tid dk st0 hterm dates st h)

/-- C8: the confirmation sweep never leaves a terminal state: a
TemplateConfirmation whose status is 'confirmed' or 'cancelled' before a run
has the same status after the run (the notification pass skips terminal rows,
the auto-cancel pass skips 'confirmed' rows and re-writes 'cancelled' rows as
'cancelled'), and a removal message for an occurrence is dispatched only when
that occurrence's prior status was not already 'cancelled'. -/
theorem C8_sweep_terminal_states :
    (∀ (now : Int) (today : Nat) (s : Store) (tid dk : Nat) (st0 : ConfStatus),
       (st0 = .confirmed ∨ st0 = .cancelled) →
       confirmationStatus s.confirmations tid dk = some st0 →
       confirmationStatus (runSweep now today s).store.confirmations tid dk =
         some st0)
    ∧ (∀ (now : Int) (today : Nat) (s : Store) (tid dk : Nat),
       confirmationStatus s.confirmations tid dk = some .cancelled →
       ∀ n ∈ (runSweep now today s).sent,
         n.kind = .removal → ¬(n.template_id = tid ∧ n.occurrence_date = dk)) := by
  have main : ∀ (now : Int) (today : Nat) (s : Store) (tid dk : Nat)
      (st0 : ConfStatus), (st0 = .confirmed ∨ st0 = .cancelled) →
      confirmationStatus s.confirmations tid dk = some st0 →
      sweepInv tid dk st0 (runSweep now today s) := by
    intro now today s tid dk st0 hterm h
    simp only [runSweep]
    exact sweepTemplates_preserves_inv now (today + 3) tid dk st0 hterm
      [today + 3, today + 1, today + 2] s.templates { store := s, sent := [] }
      ⟨h, fun n hn => absurd hn (List.not_mem_nil n)⟩
  constructor
  · intro now today s tid dk st0 hterm h
    exact (main now today s tid dk st0 hterm h).1
  · intro now today s tid dk h n hn hkind
    exact (main now today s tid dk .cancelled (Or.inr rfl) h).2 n hn hkind rfl

/-- sample template for the C8 witness: weekday 6, which day 9 falls on. -/
def c8Template : TemplateBooking :=
  { id := 30, boat_id := some 1, member_id := some 2, weekday := 6
    start_time := 540, end_time := 600 }

/-- sample store for the C8 witness: a confirmed confirmation for the
template's day-9 occurrence and a cancelled one for another occurrence. -/
def c8Store : Store :=
  { bookings := []
    templates := [c8Template]
    exceptions := []
    confirmations :=
      [{ id := 70, template_id := 30, member_id := some 2, occurrence_date := 9
         status := .confirmed },
       { id := 71, template_id := 31, member_id := some 3, occurrence_date := 8
         status := .cancelled }] }

/-- witness for C8 at concrete inputs (a run whose notification date is day 9). -/
theorem C8_sweep_terminal_states_witness :
    confirmationStatus (runSweep 0 6 c8Store).store.confirmations 30 9 =
        some .confirmed ∧
      ∀ n ∈ (runSweep 0 6 c8Store).sent,
        n.kind = .removal → ¬(n.template_id = 31 ∧ n.occurrence_date = 8) := by
  constructor
  · exact C8_sweep_terminal_states.1 0 6 c8Store 30 9 .confirmed (Or.inl rfl) rfl
  · exact C8_sweep_terminal_states.2 0 6 c8Store 31 8 rfl

end RCRC
